import Mathlib

/-!
Shallow embedding of `src/oc5_ml_deployment/api/model_service.py`:
the `ModelService` class (load / is_loaded / preprocess_input / predict /
predict_batch / _get_risk_level / explain) and the module-level registry
`get_model_service`.  Machine floats are idealised as exact rationals;
the external collaborators (joblib, json, shap, the sklearn pipeline) are
opaque values supplied through an environment record, exactly at the points
where the Python code calls into them.
-/

namespace OC5

/-- A feature value of the raw input mapping (a JSON scalar). -/
inductive Value
  | num (q : ℚ)
  | str (s : String)
deriving DecidableEq, Repr

/-- The raw input mapping (a Python dict: unique keys, `lookup` semantics). -/
abbrev Raw := List (String × Value)

/-- A single-row dataframe: named columns in order. -/
abbrev DF := List (String × Value)

/-- `metadata["features"]`: the two ordered feature-name lists. -/
structure FeaturesRec where
  numeric : List String
  categorical : List String
deriving DecidableEq, Repr

/-- The deserialized metadata JSON record.  `features = none` models a JSON
document that parsed but lacks the `"features"` structure, so that
`_extract_feature_info` raises a `KeyError`. -/
structure MetadataJson where
  features : Option FeaturesRec
deriving DecidableEq, Repr

/-- `self.feature_columns` as built by `_extract_feature_info`
(lines 95-99): the numeric list, the categorical list, and `all`. -/
structure FeatureCols where
  numeric : List String
  categorical : List String
  all : List String
deriving DecidableEq, Repr

/-- The opaque trained pipeline: `predict_proba(df)[0]` as the pair
`(p_stay, p_leave)` (lines 171-176). -/
abbrev Classifier := DF → ℚ × ℚ

/-- The opaque SHAP tree explainer combined with the pipeline transform:
from the preprocessed row it yields the transformed feature names
(line 285) and the leave-class SHAP values (lines 275-282). -/
abbrev Explainer := DF → List String × List ℚ

/-- The mutable fields of a `ModelService` object (lines 31-34). -/
structure ModelService where
  model : Option Classifier
  metadata : Option MetadataJson
  feature_columns : Option FeatureCols
  explainer : Option Explainer

/-- `ModelService.__init__`: all four fields start as `None`. -/
def ModelService.init : ModelService :=
  { model := none, metadata := none, feature_columns := none, explainer := none }

/-- The Python exceptions the service raises. -/
inductive PyError
  | runtimeError (msg : String)
  | valueError (missing : List String)
  | typeError
deriving DecidableEq, Repr

/-- The message of the `RuntimeError` raised by `predict` (line 165). -/
def notLoadedMsg : String := "Model not loaded. Call load() first."

/-- The message of the `RuntimeError` raised by `explain` (line 239). -/
def explainNotLoadedMsg : String := "Model and explainer not loaded. Call load() first."

/-- Outcomes of the external calls `load` makes, one per call site:
`none` models the call raising.  `treeExplainerInit = none` models
`shap.TreeExplainer` rejecting the classifier type. -/
structure LoadEnv where
  joblibLoad : Option Classifier
  jsonLoad : Option MetadataJson
  treeExplainerInit : Option Explainer

/-- `_extract_feature_info` (lines 85-99): a no-op when `metadata is None`;
a `KeyError` (here `none`) when the metadata lacks the feature lists;
otherwise it stores `feature_columns` with `all = numeric ++ categorical`. -/
def ModelService.extract_feature_info (s : ModelService) : Option ModelService :=
  match s.metadata with
  | none => some s
  | some md =>
    match md.features with
    | none => none
    | some f =>
      some { s with
        feature_columns :=
          some (FeatureCols.mk f.numeric f.categorical (f.numeric ++ f.categorical)) }

/-- `load` (lines 45-83): the `try` block assigns `self.model`, then
`self.metadata`, then extracts feature info, then builds the explainer;
any raise is caught and turned into `False`, with the fields already
assigned left in place. -/
def ModelService.load (env : LoadEnv) (s : ModelService) : Bool × ModelService :=
  match env.joblibLoad with
  | none => (false, s)
  | some m =>
    let s1 := { s with model := some m }
    match env.jsonLoad with
    | none => (false, s1)
    | some md =>
      let s2 := { s1 with metadata := some md }
      match s2.extract_feature_info with
      | none => (false, s2)
      | some s3 =>
        match env.treeExplainerInit with
        | none => (false, s3)
        | some ex => (true, { s3 with explainer := some ex })

/-- `is_loaded` (lines 101-103). -/
def ModelService.is_loaded (s : ModelService) : Bool :=
  s.model.isSome && s.metadata.isSome

/-- `preprocess_input` (lines 131-152): `TypeError` when `feature_columns`
is still `None`; `ValueError` naming the missing required columns when any
required key is absent; otherwise the row restricted to exactly the
required columns, in their order (extras dropped by the selection). -/
def ModelService.preprocess_input (s : ModelService) (data : Raw) :
    Except PyError DF :=
  match s.feature_columns with
  | none => .error .typeError
  | some fc =>
    let missing := fc.all.filter (fun c => (List.lookup c data).isNone)
    if missing.isEmpty then
      .ok (fc.all.filterMap (fun c => (List.lookup c data).map (fun v => (c, v))))
    else
      .error (.valueError missing)

/-- `_get_risk_level` (lines 206-222). -/
def ModelService.get_risk_level (probability_leave : ℚ) : String :=
  if probability_leave < 40 then "LOW"
  else if probability_leave < 60 then "MEDIUM"
  else "HIGH"

/-- `predict` (lines 154-184). -/
def ModelService.predict (s : ModelService) (data : Raw) :
    Except PyError (Bool × ℚ × ℚ × String) :=
  if !s.is_loaded then .error (.runtimeError notLoadedMsg)
  else
    match s.preprocess_input data with
    | .error e => .error e
    | .ok df =>
      match s.model with
      | none => .error .typeError
      | some model =>
        let probabilities := model df
        let prob_stay := probabilities.1 * 100
        let prob_leave := probabilities.2 * 100
        let will_leave := decide (probabilities.2 ≥ (1 : ℚ) / 2)
        let risk_level := ModelService.get_risk_level prob_leave
        .ok (will_leave, prob_leave, prob_stay, risk_level)

/-- The accumulation loop of `predict_batch` (lines 199-203): sequential,
aborting at the first raising element. -/
def ModelService.predict_batch_loop (s : ModelService) :
    List Raw → Except PyError (List (Bool × ℚ × ℚ × String))
  | [] => .ok []
  | d :: rest =>
    match s.predict d with
    | .error e => .error e
    | .ok r =>
      match ModelService.predict_batch_loop s rest with
      | .error e => .error e
      | .ok rs => .ok (r :: rs)

/-- `predict_batch` (lines 186-204). -/
def ModelService.predict_batch (s : ModelService) (data_list : List Raw) :
    Except PyError (List (Bool × ℚ × ℚ × String)) :=
  if !s.is_loaded then .error (.runtimeError notLoadedMsg)
  else ModelService.predict_batch_loop s data_list

/-- Python's `round` at the integer grid: round half to even (banker's
rounding), which is round's documented tie rule. -/
def rndHalfEven (q : ℚ) : ℤ :=
  if Int.fract q < 1 / 2 then ⌊q⌋
  else if 1 / 2 < Int.fract q then ⌊q⌋ + 1
  else if 2 ∣ ⌊q⌋ then ⌊q⌋ else ⌊q⌋ + 1

/-- `round(x, 4)` (line 306), idealised over the rationals. -/
def round4 (q : ℚ) : ℚ :=
  (rndHalfEven (q * 10000) : ℚ) / 10000

/-- The `impact` classification of a SHAP value (lines 296-302). -/
def impactOf (shap_value : ℚ) : String :=
  if shap_value > 0 then "increases risk"
  else if shap_value < 0 then "decreases risk"
  else "neutral"

/-- One entry of `explain`'s result (lines 304-308). -/
structure AttEntry where
  feature : String
  shap_value : ℚ
  impact : String
deriving DecidableEq, Repr

/-- Building one output entry from a `(feature, shap_value)` pair
(lines 295-308): the stored value is rounded to 4 decimals, the impact
is classified from the unrounded value. -/
def mkAttEntry (p : String × ℚ) : AttEntry :=
  AttEntry.mk p.1 (round4 p.2) (impactOf p.2)

/-- The comparison `explain` sorts by (line 291): descending absolute
SHAP value. -/
def absDesc (a b : String × ℚ) : Prop := |b.2| ≤ |a.2|

instance : DecidableRel absDesc :=
  fun a b => inferInstanceAs (Decidable (|b.2| ≤ |a.2|))

instance : IsTotal (String × ℚ) absDesc :=
  ⟨fun a b => (le_total |b.2| |a.2|).imp id id⟩

instance : IsTrans (String × ℚ) absDesc :=
  ⟨fun _ _ _ h1 h2 => le_trans h2 h1⟩

/-- `feature_importance` (line 288): transformed feature names zipped with
the leave-class SHAP values. -/
def ModelService.feature_importance_of (s : ModelService) (df : DF) :
    List (String × ℚ) :=
  match s.explainer with
  | some ex => (ex df).1.zip (ex df).2
  | none => []

/-- `explain` (lines 224-310): the not-loaded / no-explainer guard raises
one `RuntimeError` (lines 238-239); then preprocessing (exceptions
propagate), the opaque transform + SHAP evaluation, the zip, the sort by
descending absolute value, the top-5 truncation and the entry
formatting. -/
def ModelService.explain (s : ModelService) (data : Raw) :
    Except PyError (List AttEntry) :=
  if !s.is_loaded || s.explainer.isNone then
    .error (.runtimeError explainNotLoadedMsg)
  else
    match s.preprocess_input data with
    | .error e => .error e
    | .ok df =>
      let feature_importance := s.feature_importance_of df
      let sorted := List.insertionSort absDesc feature_importance
      .ok ((sorted.take 5).map mkAttEntry)

/-- The module-level mutable state (line 314) plus an instrumentation
counter of how many times `load()` has been invoked. -/
structure ProcState where
  _model_service : Option ModelService
  load_calls : Nat

/-- `get_model_service` (lines 317-330), sequential semantics: a bare
`None` check; on first call it constructs the service, runs `load()`
(its boolean result discarded) and stores the instance. -/
def get_model_service (env : LoadEnv) (ps : ProcState) :
    ModelService × ProcState :=
  match ps._model_service with
  | some s => (s, ps)
  | none =>
    let r := ModelService.load env ModelService.init
    (r.2, ProcState.mk (some r.2) (ps.load_calls + 1))

/-!  Interleaving model of `get_model_service` for two concurrent first
callers (lines 324-330).  Each thread runs, in program order:
read the global and branch on `None` (line 326); construct the service
and assign the global (line 327); run `load()` (line 328); return.
Each step is atomic (the interpreter lock); `load()` does blocking IO so
the scheduler may switch threads between any two steps. -/

/-- A thread's program counter inside `get_model_service`. -/
inductive ThreadPC
  | pcCheck | pcAssign | pcLoad | pcDone
deriving DecidableEq, Repr

/-- Shared global (is `_model_service` assigned?), the count of completed
`load()` executions, and both program counters. -/
structure RaceState where
  globalAssigned : Bool
  load_runs : Nat
  pc1 : ThreadPC
  pc2 : ThreadPC
deriving DecidableEq, Repr

/-- One atomic step of a thread at `pc`, given the shared global and the
load counter. -/
def stepThread (pc : ThreadPC) (g : Bool) (loads : Nat) :
    ThreadPC × Bool × Nat :=
  match pc with
  | .pcCheck => (if g then .pcDone else .pcAssign, g, loads)
  | .pcAssign => (.pcLoad, true, loads)
  | .pcLoad => (.pcDone, g, loads + 1)
  | .pcDone => (.pcDone, g, loads)

/-- Scheduler step: `false` steps thread 1, `true` steps thread 2. -/
def raceStep (t2 : Bool) (st : RaceState) : RaceState :=
  if t2 then
    let r := stepThread st.pc2 st.globalAssigned st.load_runs
    RaceState.mk r.2.1 r.2.2 st.pc1 r.1
  else
    let r := stepThread st.pc1 st.globalAssigned st.load_runs
    RaceState.mk r.2.1 r.2.2 r.1 st.pc2

/-- Run a schedule (list of scheduler choices). -/
def runRace (sched : List Bool) (st : RaceState) : RaceState :=
  match sched with
  | [] => st
  | t :: rest => runRace rest (raceStep t st)

/-- Both threads at the check, global unassigned, no load run yet. -/
def raceInit : RaceState := RaceState.mk false 0 .pcCheck .pcCheck

/-- Both first callers pass the `None` check before either assigns. -/
def racySchedule : List Bool := [false, true, false, false, true, true]

/-- Thread 1 finishes its whole call before thread 2 starts. -/
def seqSchedule : List Bool := [false, false, false, true]

/-!  Concrete artifacts used to evaluate the model on explicit inputs. -/

/-- A pipeline whose `predict_proba` is constantly `(3/4, 1/4)`. -/
def constClassifier : Classifier := fun _ => (3 / 4, 1 / 4)

/-- A pipeline whose `predict_proba` is constantly `(1/2, 1/2)`. -/
def halfClassifier : Classifier := fun _ => (1 / 2, 1 / 2)

/-- Metadata whose feature lists are both empty. -/
def mdEmpty : MetadataJson := MetadataJson.mk (some (FeaturesRec.mk [] []))

/-- Metadata matching the spec's scenario 1. -/
def mdScenario : MetadataJson :=
  MetadataJson.mk (some (FeaturesRec.mk ["age", "revenu_mensuel"] ["genre"]))

/-- A metadata JSON document that parsed but has no `"features"` entry. -/
def mdNoFeatures : MetadataJson := MetadataJson.mk none

/-- An explainer exposing only three transformed features. -/
def smallExplainer : Explainer :=
  fun _ => (["feature_0", "feature_1", "feature_2"], [1, -2, 0])

/-- Environment: both reads succeed, `shap.TreeExplainer` raises. -/
def envExplFail : LoadEnv := LoadEnv.mk (some constClassifier) (some mdEmpty) none

/-- Environment: metadata read/deserialization raises. -/
def envMetaFail : LoadEnv := LoadEnv.mk (some constClassifier) none (some smallExplainer)

/-- Environment: metadata parses but lacks the feature lists, so
`_extract_feature_info` raises a `KeyError`. -/
def envBadMeta : LoadEnv :=
  LoadEnv.mk (some constClassifier) (some mdNoFeatures) (some smallExplainer)

/-- Environment: everything succeeds, three-feature explainer. -/
def envSmall : LoadEnv := LoadEnv.mk (some constClassifier) (some mdEmpty) (some smallExplainer)

/-- Environment: everything succeeds, scenario-1 metadata. -/
def envScenario : LoadEnv :=
  LoadEnv.mk (some halfClassifier) (some mdScenario) (some smallExplainer)

/-- The service left behind by a load whose explainer init failed. -/
def svcNoExplainer : ModelService := (ModelService.load envExplFail ModelService.init).2

/-- A fully loaded service with the three-feature explainer. -/
def svcSmall : ModelService := (ModelService.load envSmall ModelService.init).2

/-- A fully loaded service with the scenario-1 metadata. -/
def svcScenario : ModelService := (ModelService.load envScenario ModelService.init).2

/-- The scenario-1 raw input. -/
def rawScenario : Raw :=
  [("age", Value.num 35), ("revenu_mensuel", Value.num 5000),
   ("extra_key", Value.str "dropped"), ("genre", Value.str "Male")]

/-!  Facts about Python's half-even rounding, needed to carry the sort
order of `explain` through the final 4-decimal rounding of the stored
SHAP values. -/

theorem rndHalfEven_intCast (n : ℤ) : rndHalfEven (n : ℚ) = n := by
  unfold rndHalfEven
  rw [Int.fract_intCast, Int.floor_intCast]
  norm_num

theorem rndHalfEven_zero : rndHalfEven 0 = 0 := by
  simpa using rndHalfEven_intCast 0

theorem rndHalfEven_le_floor_add_one (q : ℚ) : rndHalfEven q ≤ ⌊q⌋ + 1 := by
  unfold rndHalfEven
  split_ifs <;> omega

theorem floor_le_rndHalfEven (q : ℚ) : ⌊q⌋ ≤ rndHalfEven q := by
  unfold rndHalfEven
  split_ifs <;> omega

theorem rndHalfEven_mono {a b : ℚ} (h : a ≤ b) : rndHalfEven a ≤ rndHalfEven b := by
  rcases lt_or_eq_of_le (Int.floor_le_floor h) with hf | hf
  · calc rndHalfEven a ≤ ⌊a⌋ + 1 := rndHalfEven_le_floor_add_one a
      _ ≤ ⌊b⌋ := by omega
      _ ≤ rndHalfEven b := floor_le_rndHalfEven b
  · have hfr : Int.fract a ≤ Int.fract b := by
      unfold Int.fract
      rw [hf]
      linarith
    unfold rndHalfEven
    rw [hf]
    split_ifs <;> first | omega | linarith | (exfalso; linarith)

theorem rndHalfEven_neg (q : ℚ) : rndHalfEven (-q) = -rndHalfEven q := by
  by_cases hz : Int.fract q = 0
  · obtain ⟨n, hn⟩ : ∃ n : ℤ, q = (n : ℚ) := ⟨⌊q⌋, by
      have h := Int.floor_add_fract q
      rw [hz] at h
      linarith⟩
    subst hn
    rw [show (-(n : ℚ)) = ((-n : ℤ) : ℚ) by push_cast; ring]
    rw [rndHalfEven_intCast, rndHalfEven_intCast]
  · have h0 : 0 < Int.fract q := lt_of_le_of_ne (Int.fract_nonneg q) (Ne.symm hz)
    have hfneg : Int.fract (-q) = 1 - Int.fract q := Int.fract_neg hz
    have e1 : Int.fract (-q) = -q - (⌊-q⌋ : ℚ) := rfl
    have e2 : Int.fract q = q - (⌊q⌋ : ℚ) := rfl
    have hflq : ((⌊-q⌋ : ℤ) : ℚ) = ((-⌊q⌋ - 1 : ℤ) : ℚ) := by
      rw [e2] at hfneg
      rw [e1] at hfneg
      push_cast
      linarith
    have hfl : ⌊-q⌋ = -⌊q⌋ - 1 := by exact_mod_cast hflq
    unfold rndHalfEven
    rw [hfneg, hfl]
    rcases lt_trichotomy (Int.fract q) (1 / 2) with hh | hh | hh <;>
      split_ifs <;> first | omega | linarith | (exfalso; linarith)

theorem round4_mono {a b : ℚ} (h : a ≤ b) : round4 a ≤ round4 b := by
  unfold round4
  have h1 : rndHalfEven (a * 10000) ≤ rndHalfEven (b * 10000) :=
    rndHalfEven_mono (by linarith)
  have h2 : ((rndHalfEven (a * 10000) : ℤ) : ℚ) ≤ ((rndHalfEven (b * 10000) : ℤ) : ℚ) := by
    exact_mod_cast h1
  linarith

theorem round4_zero : round4 0 = 0 := by
  unfold round4
  rw [show ((0 : ℚ) * 10000) = ((0 : ℤ) : ℚ) by norm_num, rndHalfEven_intCast]
  norm_num

theorem round4_neg (q : ℚ) : round4 (-q) = -round4 q := by
  unfold round4
  rw [show (-q * 10000) = -(q * 10000) by ring, rndHalfEven_neg]
  push_cast
  ring

theorem abs_round4 (q : ℚ) : |round4 q| = round4 |q| := by
  rcases le_or_lt 0 q with h | h
  · have h1 : 0 ≤ round4 q := by
      have := round4_mono h
      rwa [round4_zero] at this
    rw [abs_of_nonneg h1, abs_of_nonneg h]
  · have h1 : round4 q ≤ 0 := by
      have := round4_mono (le_of_lt h)
      rwa [round4_zero] at this
    rw [abs_of_nonpos h1, abs_of_neg h, ← round4_neg]

theorem abs_round4_le_abs_round4 {a b : ℚ} (h : |a| ≤ |b|) :
    |round4 a| ≤ |round4 b| := by
  rw [abs_round4, abs_round4]
  exact round4_mono h

theorem round4_intCast (n : ℤ) : round4 (n : ℚ) = n := by
  unfold round4
  rw [show ((n : ℚ) * 10000) = ((n * 10000 : ℤ) : ℚ) by push_cast; ring]
  rw [rndHalfEven_intCast]
  push_cast
  field_simp

/-- Whether an exception-carrying computation succeeded. -/
def isOkE {α : Type} : Except PyError α → Bool
  | .ok _ => true
  | .error _ => false

/-- Selecting columns that are all present keeps exactly those column
names, in order. -/
theorem filterMap_lookup_cols (data : Raw) (cols : List String)
    (h : ∀ c ∈ cols, (List.lookup c data).isNone = false) :
    (cols.filterMap (fun c => (List.lookup c data).map (fun v => (c, v)))).map
      Prod.fst = cols := by
  induction cols with
  | nil => rfl
  | cons c rest ih =>
    have hc := h c (List.mem_cons_self c rest)
    cases hl : List.lookup c data with
    | none => rw [hl] at hc; simp at hc
    | some v =>
      have hstep : (c :: rest).filterMap
          (fun c => (List.lookup c data).map (fun v => (c, v))) =
          (c, v) :: rest.filterMap
            (fun c => (List.lookup c data).map (fun v => (c, v))) :=
        List.filterMap_cons_some (by simp [hl])
      rw [hstep, List.map_cons, ih (fun x hx => h x (List.mem_cons_of_mem c hx))]

/-- The direction classification of lines 296-302, characterised. -/
theorem impactOf_spec (v : ℚ) :
    (impactOf v = "increases risk" ↔ 0 < v) ∧
    (impactOf v = "decreases risk" ↔ v < 0) ∧
    (impactOf v = "neutral" ↔ v = 0) := by
  unfold impactOf
  rcases lt_trichotomy v 0 with h | h | h
  · rw [if_neg (by linarith), if_pos h]
    refine ⟨⟨fun hx => absurd hx (by decide), fun hx => absurd hx (by linarith)⟩,
            ⟨fun _ => h, fun _ => rfl⟩,
            ⟨fun hx => absurd hx (by decide), fun hx => absurd hx (by linarith)⟩⟩
  · rw [if_neg (by linarith), if_neg (by linarith)]
    refine ⟨⟨fun hx => absurd hx (by decide), fun hx => absurd hx (by linarith)⟩,
            ⟨fun hx => absurd hx (by decide), fun hx => absurd hx (by linarith)⟩,
            ⟨fun _ => h, fun _ => rfl⟩⟩
  · rw [if_pos h]
    refine ⟨⟨fun _ => h, fun _ => rfl⟩,
            ⟨fun hx => absurd hx (by decide), fun hx => absurd hx (by linarith)⟩,
            ⟨fun hx => absurd hx (by decide), fun hx => absurd hx (by linarith)⟩⟩

/-- The loop of `predict_batch` is exactly a monadic map of `predict`. -/
theorem predict_batch_loop_eq_mapM (s : ModelService) (xs : List Raw) :
    ModelService.predict_batch_loop s xs = xs.mapM s.predict := by
  induction xs with
  | nil => rfl
  | cons x rest ih =>
    rw [List.mapM_cons]
    unfold ModelService.predict_batch_loop
    rw [ih]
    cases s.predict x with
    | error e => rfl
    | ok r =>
      cases rest.mapM s.predict with
      | error e => rfl
      | ok rs => rfl

/-- C4: risk classification is a deterministic pure function of
`probability_leave` in `[0,100]`: LOW on `[0,40)`, MEDIUM on `[40,60)`,
HIGH on `[60,100]`, with the boundary 40 mapping to MEDIUM and the
boundary 60 mapping to HIGH. -/
theorem C4_risk_level (p : ℚ) (h0 : 0 ≤ p) (h1 : p ≤ 100) :
    (ModelService.get_risk_level p = "LOW" ↔ p < 40) ∧
    (ModelService.get_risk_level p = "MEDIUM" ↔ 40 ≤ p ∧ p < 60) ∧
    (ModelService.get_risk_level p = "HIGH" ↔ 60 ≤ p) ∧
    ModelService.get_risk_level 40 = "MEDIUM" ∧
    ModelService.get_risk_level 60 = "HIGH" := by
  unfold ModelService.get_risk_level
  refine ⟨?_, ?_, ?_, by norm_num, by norm_num⟩
  · split_ifs with ha hb
    · exact ⟨fun _ => ha, fun _ => rfl⟩
    · exact ⟨fun hx => absurd hx (by decide), fun hx => absurd hx ha⟩
    · exact ⟨fun hx => absurd hx (by decide), fun hx => absurd hx ha⟩
  · split_ifs with ha hb
    · exact ⟨fun hx => absurd hx (by decide), fun hx => absurd ha (not_lt.mpr hx.1)⟩
    · exact ⟨fun _ => ⟨le_of_not_lt ha, hb⟩, fun _ => rfl⟩
    · exact ⟨fun hx => absurd hx (by decide), fun hx => absurd hx.2 hb⟩
  · split_ifs with ha hb
    · exact ⟨fun hx => absurd hx (by decide),
             fun hx => absurd ha (not_lt.mpr (by linarith))⟩
    · exact ⟨fun hx => absurd hx (by decide), fun hx => absurd hb (not_lt.mpr hx)⟩
    · exact ⟨fun _ => le_of_not_lt hb, fun _ => rfl⟩

/-- C4 witness at the boundary input 40. -/
theorem C4_risk_level_witness :
    (ModelService.get_risk_level 40 = "LOW" ↔ (40 : ℚ) < 40) ∧
    (ModelService.get_risk_level 40 = "MEDIUM" ↔ 40 ≤ (40 : ℚ) ∧ (40 : ℚ) < 60) ∧
    (ModelService.get_risk_level 40 = "HIGH" ↔ 60 ≤ (40 : ℚ)) ∧
    ModelService.get_risk_level 40 = "MEDIUM" ∧
    ModelService.get_risk_level 60 = "HIGH" :=
  C4_risk_level 40 (by norm_num) (by norm_num)

/-- C6: preprocessing fails with a `ValueError` naming every missing
required column exactly when some required column (numeric ++ categorical)
is absent from the raw mapping; otherwise it returns the row restricted to
exactly the required columns, in required order, extra keys discarded. -/
theorem C6_preprocess_required (s : ModelService) (data : Raw)
    (num cat : List String)
    (hfc : s.feature_columns = some (FeatureCols.mk num cat (num ++ cat))) :
    ((num ++ cat).filter (fun c => (List.lookup c data).isNone) ≠ [] →
      s.preprocess_input data =
        .error (.valueError
          ((num ++ cat).filter (fun c => (List.lookup c data).isNone))) ∧
      ∀ c ∈ num ++ cat, List.lookup c data = none →
        c ∈ (num ++ cat).filter (fun c => (List.lookup c data).isNone)) ∧
    ((num ++ cat).filter (fun c => (List.lookup c data).isNone) = [] →
      s.preprocess_input data =
        .ok ((num ++ cat).filterMap
          (fun c => (List.lookup c data).map (fun v => (c, v)))) ∧
      ((num ++ cat).filterMap
        (fun c => (List.lookup c data).map (fun v => (c, v)))).map Prod.fst =
        num ++ cat) := by
  constructor
  · intro hne
    have hia : ((num ++ cat).filter
        (fun c => (List.lookup c data).isNone)).isEmpty = false := by
      cases hm : (num ++ cat).filter (fun c => (List.lookup c data).isNone) with
      | nil => exact absurd hm hne
      | cons a t => rfl
    refine ⟨?_, ?_⟩
    · simp only [ModelService.preprocess_input, hfc]
      rw [hia]
      exact if_neg Bool.false_ne_true
    intro c hc hnone
    rw [List.mem_filter]
    exact ⟨hc, by rw [hnone]; rfl⟩
  · intro he
    have hia : ((num ++ cat).filter
        (fun c => (List.lookup c data).isNone)).isEmpty = true := by
      rw [he]
      rfl
    have hall : ∀ c ∈ num ++ cat, (List.lookup c data).isNone = false := by
      intro c hc
      by_contra hx
      have hmem : c ∈ (num ++ cat).filter
          (fun c => (List.lookup c data).isNone) := by
        rw [List.mem_filter]
        refine ⟨hc, ?_⟩
        cases hlk : (List.lookup c data).isNone with
        | true => rfl
        | false => exact absurd hlk hx
      rw [he] at hmem
      simp at hmem
    refine ⟨?_, filterMap_lookup_cols data (num ++ cat) hall⟩
    simp only [ModelService.preprocess_input, hfc]
    rw [hia]
    exact if_pos rfl

/-- C6 witness: the spec's scenario-1 metadata and input (plus one extra
key), yielding exactly the columns `[age, revenu_mensuel, genre]` in
order. -/
theorem C6_preprocess_required_witness :
    svcScenario.preprocess_input rawScenario =
      .ok [("age", Value.num 35), ("revenu_mensuel", Value.num 5000),
           ("genre", Value.str "Male")] := by
  have h := (C6_preprocess_required svcScenario rawScenario
    ["age", "revenu_mensuel"] ["genre"] rfl).2 rfl
  exact h.1.trans (by rfl)

/-- C5: on a loaded service, when the classifier returns `(p_stay, p_leave)`
summing to 1, predict returns the two percentages (summing to 100) and
`will_leave` is true exactly when `probability_leave / 100 ≥ 0.5`, the
boundary inclusive on the will-leave side. -/
theorem C5_predict_probabilities (s : ModelService) (data : Raw)
    (m : Classifier) (df : DF)
    (hl : s.is_loaded = true) (hm : s.model = some m)
    (hp : s.preprocess_input data = .ok df)
    (hsum : (m df).1 + (m df).2 = 1) :
    s.predict data = .ok (decide ((m df).2 ≥ (1 : ℚ) / 2), (m df).2 * 100,
      (m df).1 * 100, ModelService.get_risk_level ((m df).2 * 100)) ∧
    (m df).2 * 100 + (m df).1 * 100 = 100 ∧
    ((decide ((m df).2 ≥ (1 : ℚ) / 2) = true) ↔
      ((m df).2 * 100) / 100 ≥ (1 : ℚ) / 2) := by
  refine ⟨?_, by linarith, ?_⟩
  · unfold ModelService.predict
    rw [hl, hp, hm]
    rfl
  · rw [decide_eq_true_iff]
    constructor <;> intro hx <;> [linarith; linarith]

/-- C5 witness on a concrete loaded service with `p_leave = 1/2`. -/
theorem C5_predict_probabilities_witness :
    svcScenario.predict rawScenario = .ok (decide ((1 : ℚ) / 2 ≥ (1 : ℚ) / 2),
      (1 : ℚ) / 2 * 100, (1 : ℚ) / 2 * 100,
      ModelService.get_risk_level ((1 : ℚ) / 2 * 100)) ∧
    (1 : ℚ) / 2 * 100 + (1 : ℚ) / 2 * 100 = 100 ∧
    ((decide ((1 : ℚ) / 2 ≥ (1 : ℚ) / 2) = true) ↔
      ((1 : ℚ) / 2 * 100) / 100 ≥ (1 : ℚ) / 2) :=
  C5_predict_probabilities svcScenario rawScenario halfClassifier
    [("age", Value.num 35), ("revenu_mensuel", Value.num 5000),
     ("genre", Value.str "Male")]
    rfl rfl (by rfl) (by norm_num [halfClassifier])

/-- C8: on a loaded service, `predict_batch` is the element-wise,
order-preserving application of `predict` (Python's
`[predict(x) for x in xs]`, i.e. the monadic map in the exception
monad). -/
theorem C8_predict_batch_elementwise (s : ModelService) (xs : List Raw)
    (h : s.is_loaded = true) :
    s.predict_batch xs = xs.mapM s.predict := by
  unfold ModelService.predict_batch
  rw [h]
  exact predict_batch_loop_eq_mapM s xs

/-- C8 witness on a concrete loaded service and a two-element batch. -/
theorem C8_predict_batch_elementwise_witness :
    svcScenario.predict_batch [rawScenario, rawScenario] =
      [rawScenario, rawScenario].mapM svcScenario.predict :=
  C8_predict_batch_elementwise svcScenario [rawScenario, rawScenario] rfl

/-- The entries `svcSmall.explain` produces on the empty mapping. -/
def smallEntries : List AttEntry :=
  [AttEntry.mk "feature_1" (-2) "decreases risk",
   AttEntry.mk "feature_0" 1 "increases risk",
   AttEntry.mk "feature_2" 0 "neutral"]

/-- Evaluating `explain` on the three-feature service. -/
theorem svcSmall_explain_eval : svcSmall.explain [] = .ok smallEntries := by
  have h1 : svcSmall.explain [] =
      .ok ([("feature_1", (-2 : ℚ)), ("feature_0", 1),
            ("feature_2", 0)].map mkAttEntry) := rfl
  have e2 : round4 (-2) = -2 := by
    have := round4_intCast (-2)
    push_cast at this
    exact this
  have e1 : round4 1 = 1 := by
    have := round4_intCast 1
    push_cast at this
    exact this
  rw [h1]
  norm_num [mkAttEntry, smallEntries, impactOf, e2, e1, round4_zero]

/-- Evaluating `predict` on the loaded service whose explainer failed to
initialize. -/
theorem svcNoExplainer_predict_eval :
    svcNoExplainer.predict [] = .ok (false, 25, 75, "LOW") := by
  have h1 : svcNoExplainer.predict [] =
      .ok (decide ((1 / 4 : ℚ) ≥ (1 : ℚ) / 2), (1 / 4 : ℚ) * 100,
        (3 / 4 : ℚ) * 100,
        ModelService.get_risk_level ((1 / 4 : ℚ) * 100)) := rfl
  rw [h1]
  norm_num [ModelService.get_risk_level]

/-- Shape of a successful `explain`: the sorted, truncated, formatted
feature-importance list. -/
theorem explain_ok_shape (s : ModelService) (data : Raw) (df : DF)
    (out : List AttEntry) (hp : s.preprocess_input data = .ok df)
    (h : s.explain data = .ok out) :
    out = ((List.insertionSort absDesc (s.feature_importance_of df)).take 5).map
      mkAttEntry := by
  by_cases hg : (!s.is_loaded || s.explainer.isNone) = true
  · unfold ModelService.explain at h
    rw [if_pos hg] at h
    exact Except.noConfusion h
  · unfold ModelService.explain at h
    rw [if_neg hg, hp] at h
    have h2 : Except.ok (((List.insertionSort absDesc
        (s.feature_importance_of df)).take 5).map mkAttEntry) =
        Except.ok out := h
    exact (Except.ok.inj h2).symm

/-- C3 (amended): on an accepted input, `explain` returns
`min 5 n` entries, where `n` is the size of the transformed
feature-importance list — hence exactly 5 whenever the transformed
feature space has at least 5 features — and the entries are sorted by
non-increasing absolute contribution. -/
theorem C3_explain_top5_sorted (s : ModelService) (data : Raw) (df : DF)
    (out : List AttEntry) (hp : s.preprocess_input data = .ok df)
    (h : s.explain data = .ok out) :
    out.length = min 5 (s.feature_importance_of df).length ∧
    List.Pairwise (fun e1 e2 : AttEntry => |e2.shap_value| ≤ |e1.shap_value|)
      out := by
  rw [explain_ok_shape s data df out hp h]
  constructor
  · rw [List.length_map, List.length_take, List.length_insertionSort]
  · have hs : List.Pairwise absDesc
        (List.insertionSort absDesc (s.feature_importance_of df)) :=
      List.sorted_insertionSort absDesc (s.feature_importance_of df)
    have ht : List.Pairwise absDesc
        ((List.insertionSort absDesc (s.feature_importance_of df)).take 5) :=
      List.Pairwise.sublist (List.take_sublist 5 _) hs
    exact List.Pairwise.map mkAttEntry
      (fun a b hab => abs_round4_le_abs_round4 hab) ht

/-- C3 counterexample: a loaded service over a three-feature transformed
space returns 3 entries, not 5. -/
theorem C3_counterexample :
    svcSmall.is_loaded = true ∧
    Except.map List.length (svcSmall.explain []) = .ok 3 := by
  refine ⟨rfl, ?_⟩
  rw [svcSmall_explain_eval]
  rfl

/-- C3 witness at the three-feature service. -/
theorem C3_explain_top5_sorted_witness :
    smallEntries.length = min 5 (svcSmall.feature_importance_of []).length ∧
    List.Pairwise (fun e1 e2 : AttEntry => |e2.shap_value| ≤ |e1.shap_value|)
      smallEntries :=
  C3_explain_top5_sorted svcSmall [] [] smallEntries rfl svcSmall_explain_eval

/-- C7: every entry returned by `explain` is classified from the sign of
its (unrounded) contribution `v`: "increases risk" iff `v > 0`,
"decreases risk" iff `v < 0`, "neutral" iff `v = 0` (the stored value is
`v` rounded to 4 decimals). -/
theorem C7_impact_sign (s : ModelService) (data : Raw) (out : List AttEntry)
    (h : s.explain data = .ok out) :
    ∀ e ∈ out, ∃ v : ℚ, e.shap_value = round4 v ∧ e.impact = impactOf v ∧
      (e.impact = "increases risk" ↔ 0 < v) ∧
      (e.impact = "decreases risk" ↔ v < 0) ∧
      (e.impact = "neutral" ↔ v = 0) := by
  have h0 := h
  unfold ModelService.explain at h
  by_cases hg : (!s.is_loaded || s.explainer.isNone) = true
  · rw [if_pos hg] at h
    exact Except.noConfusion h
  · rw [if_neg hg] at h
    cases hp : s.preprocess_input data with
    | error e2 =>
      rw [hp] at h
      have h2 : (Except.error e2 : Except PyError (List AttEntry)) =
          Except.ok out := h
      exact Except.noConfusion h2
    | ok df =>
      have hsh := explain_ok_shape s data df out hp h0
      subst hsh
      intro e he
      obtain ⟨p, hpmem, rfl⟩ := List.mem_map.mp he
      exact ⟨p.2, rfl, rfl, (impactOf_spec p.2).1, (impactOf_spec p.2).2.1,
        (impactOf_spec p.2).2.2⟩

/-- C7 witness: the leading entry of the three-feature service's
explanation, whose contribution is −2. -/
theorem C7_impact_sign_witness :
    ∃ v : ℚ,
      (AttEntry.mk "feature_1" (-2) "decreases risk").shap_value = round4 v ∧
      (AttEntry.mk "feature_1" (-2) "decreases risk").impact = impactOf v ∧
      ((AttEntry.mk "feature_1" (-2) "decreases risk").impact =
        "increases risk" ↔ 0 < v) ∧
      ((AttEntry.mk "feature_1" (-2) "decreases risk").impact =
        "decreases risk" ↔ v < 0) ∧
      ((AttEntry.mk "feature_1" (-2) "decreases risk").impact =
        "neutral" ↔ v = 0) :=
  C7_impact_sign svcSmall [] smallEntries svcSmall_explain_eval
    (AttEntry.mk "feature_1" (-2) "decreases risk") (List.mem_cons_self _ _)

/-- Failures in the first two steps of `load` leave the service
not-loaded. -/
theorem load_early_failure_not_loaded (env : LoadEnv)
    (hj : env.joblibLoad = none ∨ env.jsonLoad = none) :
    (ModelService.load env ModelService.init).2.is_loaded = false := by
  obtain ⟨jl, js, te⟩ := env
  rcases hj with hj | hj
  · cases jl with
    | none => rfl
    | some m => exact Option.noConfusion hj
  · cases js with
    | none =>
      cases jl with
      | none => rfl
      | some m => rfl
    | some md =>
      cases jl with
      | none => rfl
      | some m => exact Option.noConfusion hj

/-- C1 (amended): a failing `load()` returns `false`, but the fields
assigned before the failing step are retained: failures in model
loading or metadata reading leave `is_loaded()` false (though a
metadata-read failure keeps the already-assigned model), while a failure
after both reads (feature extraction or explainer initialization)
leaves both model and metadata set, so `is_loaded()` returns true. -/
theorem C1_load_failure_partial_state (env : LoadEnv)
    (hfail : (ModelService.load env ModelService.init).1 = false) :
    (env.joblibLoad = none →
      (ModelService.load env ModelService.init).2.is_loaded = false) ∧
    (∀ m, env.joblibLoad = some m → env.jsonLoad = none →
      (ModelService.load env ModelService.init).2.model = some m ∧
      (ModelService.load env ModelService.init).2.is_loaded = false) ∧
    (∀ m md, env.joblibLoad = some m → env.jsonLoad = some md →
      (ModelService.load env ModelService.init).2.model = some m ∧
      (ModelService.load env ModelService.init).2.metadata = some md ∧
      (ModelService.load env ModelService.init).2.is_loaded = true) := by
  obtain ⟨jl, js, te⟩ := env
  refine ⟨?_, ?_, ?_⟩
  · intro hjl
    cases jl with
    | none => rfl
    | some m0 => exact Option.noConfusion hjl
  · intro m hm hjs
    cases jl with
    | none => exact Option.noConfusion hm
    | some m0 =>
      cases js with
      | none =>
        have hm2 : m0 = m := Option.some.inj hm
        subst hm2
        exact ⟨rfl, rfl⟩
      | some md0 => exact Option.noConfusion hjs
  · intro m md hm hmd
    cases jl with
    | none => exact Option.noConfusion hm
    | some m0 =>
      cases js with
      | none => exact Option.noConfusion hmd
      | some md0 =>
        have hm2 : m0 = m := Option.some.inj hm
        have hmd2 : md0 = md := Option.some.inj hmd
        subst hm2
        subst hmd2
        obtain ⟨ft⟩ := md0
        cases ft with
        | none => exact ⟨rfl, rfl, rfl⟩
        | some f =>
          cases te with
          | none => exact ⟨rfl, rfl, rfl⟩
          | some ex => exact Bool.noConfusion hfail

/-- C1 counterexample: metadata deserializes but lacks the feature lists,
so `_extract_feature_info` raises inside the `try`; `load()` returns
`false`, yet the service retains the model and metadata and
`is_loaded()` reports true — not the claimed clean not-loaded state. -/
theorem C1_counterexample :
    (ModelService.load envBadMeta ModelService.init).1 = false ∧
    (ModelService.load envBadMeta ModelService.init).2.is_loaded = true ∧
    (ModelService.load envBadMeta ModelService.init).2.model =
      some constClassifier :=
  ⟨rfl, rfl, rfl⟩

/-- C1 witness: a metadata-read failure retains the loaded model while
`is_loaded()` is false. -/
theorem C1_load_failure_partial_state_witness :
    (ModelService.load envMetaFail ModelService.init).2.model =
      some constClassifier ∧
    (ModelService.load envMetaFail ModelService.init).2.is_loaded = false :=
  (C1_load_failure_partial_state envMetaFail rfl).2.1 constClassifier rfl rfl

/-- C2 (amended): `explain` raises the same
`RuntimeError("Model and explainer not loaded. Call load() first.")`
both before a successful `load()` and when the service has no
attribution support (no explainer); there is no distinct
`AttributionUnavailableError`.  In the no-explainer state, `predict`
still succeeds on schema-complete input. -/
theorem C2_explain_uniform_error (s : ModelService) (data : Raw)
    (hna : s.explainer = none) :
    s.explain data = .error (.runtimeError explainNotLoadedMsg) ∧
    ModelService.init.explain data =
      .error (.runtimeError explainNotLoadedMsg) ∧
    (s.is_loaded = true →
      ∀ fc, s.feature_columns = some fc →
        (fc.all.filter (fun c => (List.lookup c data).isNone)).isEmpty = true →
        isOkE (s.predict data) = true) := by
  refine ⟨?_, rfl, ?_⟩
  · have hc : (!s.is_loaded || s.explainer.isNone) = true := by
      rw [hna]
      simp
    unfold ModelService.explain
    rw [if_pos hc]
  · intro hl fc hfc hemp
    have hpre : s.preprocess_input data =
        .ok (fc.all.filterMap
          (fun c => (List.lookup c data).map (fun v => (c, v)))) := by
      simp only [ModelService.preprocess_input, hfc]
      rw [hemp]
      exact if_pos rfl
    obtain ⟨m, hm⟩ : ∃ m, s.model = some m := by
      unfold ModelService.is_loaded at hl
      exact Option.isSome_iff_exists.mp (Bool.and_eq_true_iff.mp hl).1
    unfold ModelService.predict
    rw [hl, hpre, hm]
    rfl

/-- C2 counterexample: the not-loaded service and the
loaded-but-no-explainer service produce the *same* error value from
`explain` (the same `RuntimeError` message — no distinct attribution
error), while `predict` succeeds on the latter. -/
theorem C2_counterexample :
    ModelService.init.explain [] =
      .error (.runtimeError explainNotLoadedMsg) ∧
    svcNoExplainer.explain [] =
      .error (.runtimeError explainNotLoadedMsg) ∧
    svcNoExplainer.is_loaded = true ∧
    svcNoExplainer.predict [] = .ok (false, 25, 75, "LOW") :=
  ⟨rfl, rfl, rfl, svcNoExplainer_predict_eval⟩

/-- C2 witness at the concrete no-explainer service. -/
theorem C2_explain_uniform_error_witness :
    svcNoExplainer.explain [] =
      .error (.runtimeError explainNotLoadedMsg) ∧
    isOkE (svcNoExplainer.predict []) = true := by
  have h := C2_explain_uniform_error svcNoExplainer [] rfl
  exact ⟨h.1, h.2.2 rfl (FeatureCols.mk [] [] []) rfl rfl⟩

/-- C9 (amended): `get_model_service` guards initialization with a bare
unguarded `None` check and no locking primitive: a thread that reaches
the check after the global is assigned skips `load()`, and a purely
sequential pair of calls runs `load()` once — but there is an
interleaving of two concurrent first callers (both pass the check before
either assigns) under which `load()` executes twice. -/
theorem C9_bare_check_interleaving :
    (runRace seqSchedule raceInit).load_runs = 1 ∧
    (runRace racySchedule raceInit).load_runs = 2 ∧
    (∀ st : RaceState, st.globalAssigned = true →
      st.pc1 = ThreadPC.pcCheck →
      (raceStep false st).pc1 = ThreadPC.pcDone ∧
      (raceStep false st).load_runs = st.load_runs) := by
  refine ⟨rfl, rfl, ?_⟩
  intro st h1 h2
  constructor <;> simp [raceStep, stepThread, h1, h2]

/-- C9 counterexample: the interleaving in which both first callers pass
the `None` check before either assigns the global makes `load()` run
twice (both threads complete). -/
theorem C9_counterexample :
    (runRace racySchedule raceInit).load_runs = 2 ∧
    (runRace racySchedule raceInit).pc1 = ThreadPC.pcDone ∧
    (runRace racySchedule raceInit).pc2 = ThreadPC.pcDone :=
  ⟨rfl, rfl, rfl⟩

/-- C10 (amended): sequentially, after the first `get_model_service()`
call every later call returns the identical instance and never invokes
`load()` again, even when the first `load()` returned false; when the
load failure occurred in model loading or metadata reading the cached
service stays not-loaded and `predict`/`explain` fail fast — but a
failure at explainer initialization leaves `is_loaded()` true with
`predict` servable. -/
theorem C10_registry_caches_service (env : LoadEnv) (ps : ProcState)
    (data : Raw) (h : ps._model_service = none) :
    get_model_service env (get_model_service env ps).2 =
      ((get_model_service env ps).1, (get_model_service env ps).2) ∧
    (get_model_service env ps).2.load_calls = ps.load_calls + 1 ∧
    ((env.joblibLoad = none ∨ env.jsonLoad = none) →
      (get_model_service env ps).1.is_loaded = false ∧
      (get_model_service env ps).1.predict data =
        .error (.runtimeError notLoadedMsg) ∧
      (get_model_service env ps).1.explain data =
        .error (.runtimeError explainNotLoadedMsg)) := by
  have h1 : get_model_service env ps =
      ((ModelService.load env ModelService.init).2,
        ProcState.mk (some (ModelService.load env ModelService.init).2)
          (ps.load_calls + 1)) := by
    unfold get_model_service
    rw [h]
  refine ⟨?_, ?_, ?_⟩
  · rw [h1]
    rfl
  · rw [h1]
  · intro hfailenv
    have hnl : (ModelService.load env ModelService.init).2.is_loaded = false :=
      load_early_failure_not_loaded env hfailenv
    refine ⟨by rw [h1]; exact hnl, ?_, ?_⟩
    · rw [h1]
      unfold ModelService.predict
      rw [hnl]
      rfl
    · rw [h1]
      unfold ModelService.explain
      rw [hnl]
      rfl

/-- C10 counterexample: with a load that failed at explainer
initialization, the cached singleton reports `is_loaded() = true` and
serves predictions — the process is not left in a not-loaded,
fail-fast state although `load()` returned false. -/
theorem C10_counterexample :
    (ModelService.load envExplFail ModelService.init).1 = false ∧
    (get_model_service envExplFail (ProcState.mk none 0)).1.is_loaded = true ∧
    isOkE ((get_model_service envExplFail (ProcState.mk none 0)).1.predict [])
      = true := by
  refine ⟨rfl, rfl, ?_⟩
  have he : (get_model_service envExplFail (ProcState.mk none 0)).1.predict
      ([] : Raw) = svcNoExplainer.predict [] := rfl
  rw [he, svcNoExplainer_predict_eval]
  rfl

/-- C10 witness: a metadata-read failure caches a not-loaded service
whose `predict` and `explain` fail fast. -/
theorem C10_registry_caches_service_witness :
    (get_model_service envMetaFail (ProcState.mk none 0)).1.is_loaded = false ∧
    (get_model_service envMetaFail (ProcState.mk none 0)).1.predict [] =
      .error (.runtimeError notLoadedMsg) ∧
    (get_model_service envMetaFail (ProcState.mk none 0)).1.explain [] =
      .error (.runtimeError explainNotLoadedMsg) :=
  (C10_registry_caches_service envMetaFail (ProcState.mk none 0) [] rfl).2.2
    (Or.inr rfl)

end OC5
